import Mathlib

/-
  Verification of the `affiners` resampling engine against its specification.

  The Python wrapper `src/python/affiners/__init__.py` (the `zoom` convenience
  layer and the `disable_scalar_fallback` scoped region) is embedded directly.
  The compiled extension module (`affine_transform` dispatcher and the
  interpolation kernels) is not part of the source tree; those components are
  modelled from the specification (sections 4.2-4.5 and 7) and marked as such.

  Machine floats are modelled as exact rationals; integer shapes as Nat/Int.
-/

namespace Affiners

/-- Element representation of a volume: 32-bit float, 16-bit half float, or
8-bit unsigned integer.  These are the three representations the engine
supports (spec section 3). -/
inductive ElemRepr where
  | f32
  | f16
  | u8
deriving DecidableEq

/-- A dense 3D volume: a shape (list of axis extents, axis 0 slowest) and an
accessor giving the element at integer grid indices.  The accessor is only
meaningful inside the shape; the kernel substitutes `cval` outside. -/
structure VolumeQ where
  elemType : ElemRepr
  shape : List ℕ
  data : ℕ → ℕ → ℕ → ℚ

/-- Error kinds of the engine and of the zoom wrapper (spec section 7).
`invalidArguments` is the conflicting/missing zoom-parameter error;
`inputNot3D` is the wrapper's "Input must be 3D" rejection; `badFactorLength`
is the wrapper's rejection of a zoom-factor sequence whose length is not 3;
`assertFailed` is the wrapper's unreachable type-checker assertion. -/
inductive Err where
  | invalidArguments
  | inputNot3D (ndim : ℕ)
  | badFactorLength (n : ℕ)
  | assertFailed
  | invalidTransform
  | invalidShape
  | unsupportedOrder
  | unsupportedRepresentation
  | fallbackDisallowed
deriving DecidableEq

/-- The `zoom_factor` argument: either a single scalar (Python int/float) or a
sequence of per-axis factors. -/
inductive ZoomFactorArg where
  | scalar (f : ℚ)
  | seq (fs : List ℚ)

/-- The call `zoom` delegates to `affine_transform`: the input volume, the
4x4 homogeneous matrix it built, the output shape, the fill value and the
interpolation order. -/
structure AffineCall where
  input : VolumeQ
  matrix : List (List ℚ)
  outputShape : List ℤ
  cval : ℚ
  order : ℕ

/-- Python's built-in `round`: round half to even. -/
def pyRound (q : ℚ) : ℤ :=
  let f := ⌊q⌋
  let r := q - f
  if r < 1/2 then f
  else if 1/2 < r then f + 1
  else if f % 2 = 0 then f else f + 1

/-- Per-axis scale computed by `zoom` (source lines 186-196): with corner
alignment `(N-1)/(M-1)` when `M > 1` else `1.0`; otherwise `N/M`. -/
def zoomScale (alignCorners : Bool) (N : ℕ) (M : ℤ) : ℚ :=
  if alignCorners then
    (if 1 < M then ((N : ℚ) - 1) / ((M : ℚ) - 1) else 1)
  else (N : ℚ) / (M : ℚ)

/-- Normalisation of the `zoom_factor` argument (source lines 169-177): a
scalar is broadcast to all three axes; a sequence must have length 3. -/
def resolveFactors : ZoomFactorArg → Except Err (ℚ × ℚ × ℚ)
  | .scalar f => .ok (f, f, f)
  | .seq fs =>
    if fs.length = 3 then .ok (fs.getD 0 0, fs.getD 1 0, fs.getD 2 0)
    else .error (.badFactorLength fs.length)

/-- Output shape derived from the zoom factors (source lines 179-183):
`int(round(in_shape[i] * zoom_factors[i]))` per axis. -/
def computeOutputShape (inShape : List ℕ) (zfArg : ZoomFactorArg) :
    Except Err (ℤ × ℤ × ℤ) :=
  match resolveFactors zfArg with
  | .error e => .error e
  | .ok (f0, f1, f2) =>
    .ok (pyRound ((inShape.getD 0 0 : ℚ) * f0),
         pyRound ((inShape.getD 1 0 : ℚ) * f1),
         pyRound ((inShape.getD 2 0 : ℚ) * f2))

/-- The affine matrix built by `zoom` (source lines 198-207) and the final
delegation to `affine_transform` (source lines 209-211): diagonal scales,
zero translation column, homogeneous last row, input passed unchanged. -/
def buildCall (input : VolumeQ) (os : ℤ × ℤ × ℤ) (alignCorners : Bool)
    (cval : ℚ) (order : ℕ) : AffineCall :=
  let s0 := zoomScale alignCorners (input.shape.getD 0 0) os.1
  let s1 := zoomScale alignCorners (input.shape.getD 1 0) os.2.1
  let s2 := zoomScale alignCorners (input.shape.getD 2 0) os.2.2
  { input := input
    matrix := [[s0, 0, 0, 0], [0, s1, 0, 0], [0, 0, s2, 0], [0, 0, 0, 1]]
    outputShape := [os.1, os.2.1, os.2.2]
    cval := cval
    order := order }

/-- Body of `zoom` after the exactly-one-argument validation: the 3D check
(source lines 162-163), output-shape resolution, matrix construction and
delegation. -/
def zoomBody (input : VolumeQ) (zoomFactor : Option ZoomFactorArg)
    (outputShape : Option (ℤ × ℤ × ℤ)) (alignCorners : Bool)
    (cval : ℚ) (order : ℕ) : Except Err AffineCall :=
  if input.shape.length ≠ 3 then .error (.inputNot3D input.shape.length)
  else
    match outputShape with
    | some os => .ok (buildCall input os alignCorners cval order)
    | none =>
      match zoomFactor with
      | none => .error .assertFailed
      | some zfArg =>
        match computeOutputShape input.shape zfArg with
        | .error e => .error e
        | .ok os => .ok (buildCall input os alignCorners cval order)

/-- The `zoom` wrapper (source lines 103-211): first the exactly-one-of
`zoom_factor`/`output_shape` validation (source lines 152-159), then the body. -/
def zoom (input : VolumeQ) (zoomFactor : Option ZoomFactorArg)
    (outputShape : Option (ℤ × ℤ × ℤ)) (alignCorners : Bool)
    (cval : ℚ) (order : ℕ) : Except Err AffineCall :=
  if zoomFactor.isNone && outputShape.isNone then .error .invalidArguments
  else if zoomFactor.isSome && outputShape.isSome then .error .invalidArguments
  else zoomBody input zoomFactor outputShape alignCorners cval order

/-- Entry `(i, j)` of a matrix stored as a list of rows, defaulting to 0. -/
def matEntry (m : List (List ℚ)) (i j : ℕ) : ℚ := (m.getD i []).getD j 0

/-- Matrix of a delegated call, or `[]` if the call failed. -/
def callMat : Except Err AffineCall → List (List ℚ)
  | .ok c => c.matrix
  | .error _ => []

/-- Output shape of a delegated call, or `[]` if the call failed. -/
def callShape : Except Err AffineCall → List ℤ
  | .ok c => c.outputShape
  | .error _ => []

/-- Input volume forwarded by a delegated call, or an empty volume if the
call failed. -/
def callInput : Except Err AffineCall → VolumeQ
  | .ok c => c.input
  | .error _ => { elemType := .f32, shape := [], data := fun _ _ _ => 0 }

/-- Whether an engine result is a success. -/
def isOkE {α : Type} : Except Err α → Bool
  | .ok _ => true
  | .error _ => false

/-- A concrete 4x4x4 float32 volume used for concrete evaluations. -/
def testVol : VolumeQ :=
  { elemType := .f32, shape := [4, 4, 4], data := fun _ _ _ => 0 }

/-- Modelled from the spec: a CPU vector-instruction capability tier
(spec sections 3 and 4.1); the compiled extension holding the capability
detector is not in the source tree.  `scalar` is the always-available
fallback tier. -/
inductive Tier where
  | avx512
  | avx2
  | scalar
deriving DecidableEq

/-- Modelled from the spec: the dispatcher's environment (spec section 4.5) —
the cached capability state (available vector tiers, widest first), the
kernel table (which vectorized kernel exists per representation and tier),
and the calling thread's Fallback-Allowed Flag; the compiled extension
holding the dispatcher is not in the source tree. -/
structure EngineEnv where
  caps : List Tier
  hasKernel : ElemRepr → Tier → Bool
  fallbackAllowed : Bool

/-- Modelled from the spec: kernel selection (spec section 4.5 step 2) — among
available tiers pick the widest with a kernel for this representation, else
the scalar fallback kernel. -/
def selectTier (caps : List Tier) (hasKernel : ElemRepr → Tier → Bool)
    (r : ElemRepr) : Tier :=
  match caps.find? (fun t => hasKernel r t) with
  | some t => t
  | none => .scalar

/-- Modelled from the spec: sampling with the constant boundary policy
(spec section 4.4) — a corner outside `[0, extent-1]` on any axis
contributes `cval`. -/
def sampleC (v : VolumeQ) (cval : ℚ) (x y z : ℤ) : ℚ :=
  if 0 ≤ x ∧ x < (v.shape.getD 0 0 : ℤ) ∧ 0 ≤ y ∧ y < (v.shape.getD 1 0 : ℤ) ∧
     0 ≤ z ∧ z < (v.shape.getD 2 0 : ℤ) then
    v.data x.toNat y.toNat z.toNat
  else cval

/-- Modelled from the spec: the order-1 trilinear blend (spec section 4.4),
corners accumulated in low-to-high corner-index order. -/
def trilinear (v : VolumeQ) (cval : ℚ) (x y z : ℚ) : ℚ :=
  let x0 := ⌊x⌋
  let y0 := ⌊y⌋
  let z0 := ⌊z⌋
  let fx := x - x0
  let fy := y - y0
  let fz := z - z0
  (1 - fx) * (1 - fy) * (1 - fz) * sampleC v cval x0 y0 z0 +
  (1 - fx) * (1 - fy) * fz * sampleC v cval x0 y0 (z0 + 1) +
  (1 - fx) * fy * (1 - fz) * sampleC v cval x0 (y0 + 1) z0 +
  (1 - fx) * fy * fz * sampleC v cval x0 (y0 + 1) (z0 + 1) +
  fx * (1 - fy) * (1 - fz) * sampleC v cval (x0 + 1) y0 z0 +
  fx * (1 - fy) * fz * sampleC v cval (x0 + 1) y0 (z0 + 1) +
  fx * fy * (1 - fz) * sampleC v cval (x0 + 1) (y0 + 1) z0 +
  fx * fy * fz * sampleC v cval (x0 + 1) (y0 + 1) (z0 + 1)

/-- Modelled from the spec: the coordinate map of a 4x4 homogeneous transform
descriptor (spec sections 4.2 and 3) — source coordinate `= M·o + b`. -/
def coordAt (m : List (List ℚ)) (i j k : ℕ) : ℚ × ℚ × ℚ :=
  (matEntry m 0 0 * i + matEntry m 0 1 * j + matEntry m 0 2 * k + matEntry m 0 3,
   matEntry m 1 0 * i + matEntry m 1 1 * j + matEntry m 1 2 * k + matEntry m 1 3,
   matEntry m 2 0 * i + matEntry m 2 1 * j + matEntry m 2 2 * k + matEntry m 2 3)

/-- Modelled from the spec: an interpolation kernel run (spec section 4.4) —
for every output cell evaluate the coordinate map and the trilinear blend;
writes only the freshly allocated output volume.  Vectorized variants compute
the same mathematical result, so one function models every tier. -/
def runKernel (v : VolumeQ) (m : List (List ℚ)) (os : List ℤ) (cval : ℚ) :
    VolumeQ :=
  { elemType := v.elemType
    shape := os.map Int.toNat
    data := fun i j k =>
      let c := coordAt m i j k
      trilinear v cval c.1 c.2.1 c.2.2 }

/-- Modelled from the spec: transform-descriptor validation (spec section 4.2)
— the homogeneous matrix must be 4x4 with last row `[0,0,0,1]` (pure
translation row and uniform scale 1), else `InvalidTransform`.  Non-finite
entries cannot arise in the rational model. -/
def matrixOk (m : List (List ℚ)) : Bool :=
  m.length == 4 && m.all (fun row => row.length == 4) &&
    m.getD 3 [] == [0, 0, 0, 1]

/-- Modelled from the spec: output-shape validation (spec section 4.3) — an
explicit shape must have exactly 3 axes, each extent a positive integer, else
`InvalidShape`. -/
def shapeOk (os : List ℤ) : Bool :=
  os.length == 3 && os.all (fun n => 0 < n)

/-- Modelled from the spec: the engine pipeline (spec sections 4.2-4.5, 7) —
validations in order (`UnsupportedOrder`, `InvalidTransform`, `InvalidShape`,
fallback policy), and only then the selected kernel.  Returns the result
together with a flag recording whether an interpolation kernel executed. -/
def engineRunT (env : EngineEnv) (c : AffineCall) :
    Except Err VolumeQ × Bool :=
  if c.order ≠ 1 then (.error .unsupportedOrder, false)
  else if ¬ matrixOk c.matrix then (.error .invalidTransform, false)
  else if ¬ shapeOk c.outputShape then (.error .invalidShape, false)
  else
    let t := selectTier env.caps env.hasKernel c.input.elemType
    if t = .scalar ∧ env.fallbackAllowed = false then
      (.error .fallbackDisallowed, false)
    else (.ok (runKernel c.input c.matrix c.outputShape c.cval), true)

/-- Result component of the engine pipeline. -/
def engineRun (env : EngineEnv) (c : AffineCall) : Except Err VolumeQ :=
  (engineRunT env c).1

/-- The full zoom pipeline: the wrapper, then the engine; also records whether
an interpolation kernel executed. -/
def zoomRunT (env : EngineEnv) (input : VolumeQ)
    (zoomFactor : Option ZoomFactorArg) (outputShape : Option (ℤ × ℤ × ℤ))
    (alignCorners : Bool) (cval : ℚ) (order : ℕ) :
    Except Err VolumeQ × Bool :=
  match zoom input zoomFactor outputShape alignCorners cval order with
  | .error e => (.error e, false)
  | .ok c => engineRunT env c

/-- Result component of the full zoom pipeline. -/
def zoomRun (env : EngineEnv) (input : VolumeQ)
    (zoomFactor : Option ZoomFactorArg) (outputShape : Option (ℤ × ℤ × ℤ))
    (alignCorners : Bool) (cval : ℚ) (order : ℕ) : Except Err VolumeQ :=
  (zoomRunT env input zoomFactor outputShape alignCorners cval order).1

/-- Whether an interpolation kernel executed during the full zoom pipeline. -/
def zoomKernelExecuted (env : EngineEnv) (input : VolumeQ)
    (zoomFactor : Option ZoomFactorArg) (outputShape : Option (ℤ × ℤ × ℤ))
    (alignCorners : Bool) (cval : ℚ) (order : ℕ) : Bool :=
  (zoomRunT env input zoomFactor outputShape alignCorners cval order).2

/-- The thread-local flag mutator `_set_scalar_fallback_allowed`: replaces the
calling thread's Fallback-Allowed Flag with the given value. -/
def setScalarFallbackAllowed (_flag : Bool) (value : Bool) : Bool := value

/-- Entering `disable_scalar_fallback` (source line 89): the flag becomes
false. -/
def dsfEnter (flag : Bool) : Bool := setScalarFallbackAllowed flag false

/-- Exiting `disable_scalar_fallback` on any path, the `finally` clause
(source lines 92-93): the flag becomes true unconditionally. -/
def dsfExit (flag : Bool) : Bool := setScalarFallbackAllowed flag true

/-- A concrete engine environment: AVX2 capability, no vectorized kernel for
any representation, fallback allowed. -/
def env0 : EngineEnv :=
  { caps := [.avx2], hasKernel := fun _ _ => false, fallbackAllowed := true }

/-- A concrete 2D (hence invalid) input volume. -/
def vol2d : VolumeQ :=
  { elemType := .f32, shape := [4, 4], data := fun _ _ _ => 0 }

/-- A concrete valid identity delegation used to exercise the dispatcher. -/
def idCall : AffineCall :=
  { input := testVol
    matrix := [[1, 0, 0, 0], [0, 1, 0, 0], [0, 0, 1, 0], [0, 0, 0, 1]]
    outputShape := [4, 4, 4]
    cval := 0
    order := 1 }

/-- The specification's corner-aligned per-axis scale: `(N-1)/(M-1)` when
`M > 1`, else `1.0` (spec section 4.6). -/
def caScaleSpec (N : ℕ) (M : ℤ) : ℚ :=
  if 1 < M then ((N : ℚ) - 1) / ((M : ℚ) - 1) else 1

/-- If `zoom` succeeds, the delegated call is exactly `buildCall` at the
output shape recorded in the call itself. -/
lemma zoom_ok_buildCall (input : VolumeQ) (zf : Option ZoomFactorArg)
    (os : Option (ℤ × ℤ × ℤ)) (align : Bool) (cval : ℚ) (order : ℕ)
    (c : AffineCall) (h : zoom input zf os align cval order = .ok c) :
    c = buildCall input
      (c.outputShape.getD 0 0, c.outputShape.getD 1 0, c.outputShape.getD 2 0)
      align cval order := by
  unfold zoom at h
  split at h
  · exact absurd h (by simp)
  · split at h
    · exact absurd h (by simp)
    · unfold zoomBody at h
      split at h
      · exact absurd h (by simp)
      · split at h
        · cases h
          simp [buildCall]
        · split at h
          · exact absurd h (by simp)
          · split at h
            · exact absurd h (by simp)
            · cases h
              simp [buildCall]

/-- C1 counterexample: at the concrete call `zoom` of a 4x4x4 volume to
output shape 8x8x8 with `align_corners = false`, the offset actually used is
0, strictly below the claimed `0.5*(scale+1) = 3/4`, and the input forwarded
to the engine still has shape `[4,4,4]` — it was not replicated to `[6,6,6]`.
So the claimed clamp-emulating offset and border replication do not happen. -/
theorem C1_counterexample :
    matEntry (callMat (zoom testVol none (some (8, 8, 8)) false 0 1)) 0 3 <
      (1/2) * (matEntry (callMat (zoom testVol none (some (8, 8, 8)) false 0 1)) 0 0 + 1) ∧
    (callInput (zoom testVol none (some (8, 8, 8)) false 0 1)).shape = [4, 4, 4] := by
  constructor
  · simp [zoom, zoomBody, testVol, callMat, buildCall, zoomScale, matEntry]
    norm_num
  · rfl

/-- C1 (amended): every valid zoom call with `align_corners = false` that
delegates to the engine — whichever of `zoom_factor` or `output_shape` was
supplied — does so with per-axis scale `N/M`, zero offset, and the original
input forwarded unpadded: the matrix is diagonal with a zero translation
column, and no border replication or offset shift happens.  The positivity
hypotheses restrict to valid output extents (the source would raise a
division error on a zero extent). -/
theorem C1_center_scale_no_offset (input : VolumeQ) (zf : Option ZoomFactorArg)
    (os : Option (ℤ × ℤ × ℤ)) (cval : ℚ) (order : ℕ)
    (hok : isOkE (zoom input zf os false cval order) = true)
    (h0 : 0 < (callShape (zoom input zf os false cval order)).getD 0 0)
    (h1 : 0 < (callShape (zoom input zf os false cval order)).getD 1 0)
    (h2 : 0 < (callShape (zoom input zf os false cval order)).getD 2 0) :
    callMat (zoom input zf os false cval order) =
      [[(input.shape.getD 0 0 : ℚ) /
          ((callShape (zoom input zf os false cval order)).getD 0 0 : ℚ), 0, 0, 0],
       [0, (input.shape.getD 1 0 : ℚ) /
          ((callShape (zoom input zf os false cval order)).getD 1 0 : ℚ), 0, 0],
       [0, 0, (input.shape.getD 2 0 : ℚ) /
          ((callShape (zoom input zf os false cval order)).getD 2 0 : ℚ), 0],
       [0, 0, 0, 1]] ∧
    callInput (zoom input zf os false cval order) = input := by
  cases hz : zoom input zf os false cval order with
  | error e => exact absurd hok (by simp [isOkE, hz])
  | ok c =>
    have hc := zoom_ok_buildCall input zf os false cval order c hz
    refine ⟨?_, ?_⟩
    · simp only [callMat, callShape]
      conv_lhs => rw [hc]
      simp [buildCall, zoomScale]
    · simp only [callInput]
      conv_lhs => rw [hc]
      simp [buildCall]

/-- C1 witness: the amended statement evaluated at the concrete 4x4x4 volume
zoomed to 8x8x8. -/
theorem C1_center_scale_no_offset_witness :
    callMat (zoom testVol none (some (8, 8, 8)) false 0 1) =
      [[(testVol.shape.getD 0 0 : ℚ) /
          ((callShape (zoom testVol none (some (8, 8, 8)) false 0 1)).getD 0 0 : ℚ),
        0, 0, 0],
       [0, (testVol.shape.getD 1 0 : ℚ) /
          ((callShape (zoom testVol none (some (8, 8, 8)) false 0 1)).getD 1 0 : ℚ),
        0, 0],
       [0, 0, (testVol.shape.getD 2 0 : ℚ) /
          ((callShape (zoom testVol none (some (8, 8, 8)) false 0 1)).getD 2 0 : ℚ),
        0],
       [0, 0, 0, 1]] ∧
    callInput (zoom testVol none (some (8, 8, 8)) false 0 1) = testVol :=
  C1_center_scale_no_offset testVol none (some (8, 8, 8)) 0 1 rfl (by decide)
    (by decide) (by decide)

/-- C2: the code contradicts the claim (and its own docstring).  With the
flag initially true, entering the outer region sets it to false, entering the
inner region keeps it false, but exiting the inner region sets it to true —
not the value false it held when the inner region was entered — because the
`finally` clause calls `_set_scalar_fallback_allowed(True)` unconditionally
instead of restoring the saved prior value. -/
theorem C2_inner_exit_enables_fallback :
    dsfEnter true = false ∧
    dsfEnter (dsfEnter true) = false ∧
    dsfExit (dsfEnter (dsfEnter true)) = true :=
  ⟨rfl, rfl, rfl⟩

/-- C3: supplying neither `zoom_factor` nor `output_shape` fails with
`InvalidArguments` before any kernel runs; supplying both fails the same way;
supplying exactly one passes this validation and `zoom` proceeds to its body. -/
theorem C3_exactly_one_of_factor_shape :
    (∀ env input align cval order,
      zoomRunT env input none none align cval order =
        (.error .invalidArguments, false)) ∧
    (∀ env input z o align cval order,
      zoomRunT env input (some z) (some o) align cval order =
        (.error .invalidArguments, false)) ∧
    (∀ input z align cval order,
      zoom input (some z) none align cval order =
        zoomBody input (some z) none align cval order) ∧
    (∀ input o align cval order,
      zoom input none (some o) align cval order =
        zoomBody input none (some o) align cval order) :=
  ⟨fun _ _ _ _ _ => rfl, fun _ _ _ _ _ _ _ => rfl,
   fun _ _ _ _ _ => rfl, fun _ _ _ _ _ => rfl⟩

/-- C8: a scalar zoom factor behaves exactly like the same factor repeated on
all three axes — the whole pipeline (wrapper and engine) produces identical
results. -/
theorem C8_scalar_factor_is_uniform (env : EngineEnv) (input : VolumeQ)
    (f : ℚ) (align : Bool) (cval : ℚ) (order : ℕ) :
    zoomRunT env input (some (.scalar f)) none align cval order =
    zoomRunT env input (some (.seq [f, f, f])) none align cval order := rfl

/-- C4: whenever a zoom call with `align_corners = true` delegates to the
engine, the matrix it built is diagonal with per-axis scale `(N-1)/(M-1)`
when the output extent `M` exceeds 1 and `1.0` otherwise, and a zero
translation column (offset 0). -/
theorem C4_corner_alignment_scale (input : VolumeQ) (zf : Option ZoomFactorArg)
    (os : Option (ℤ × ℤ × ℤ)) (cval : ℚ) (order : ℕ)
    (hok : isOkE (zoom input zf os true cval order) = true) :
    callMat (zoom input zf os true cval order) =
      [[caScaleSpec (input.shape.getD 0 0)
          ((callShape (zoom input zf os true cval order)).getD 0 0), 0, 0, 0],
       [0, caScaleSpec (input.shape.getD 1 0)
          ((callShape (zoom input zf os true cval order)).getD 1 0), 0, 0],
       [0, 0, caScaleSpec (input.shape.getD 2 0)
          ((callShape (zoom input zf os true cval order)).getD 2 0), 0],
       [0, 0, 0, 1]] := by
  cases hz : zoom input zf os true cval order with
  | error e => exact absurd hok (by simp [isOkE, hz])
  | ok c =>
    have hc := zoom_ok_buildCall input zf os true cval order c hz
    simp only [callMat, callShape]
    conv_lhs => rw [hc]
    simp [buildCall, zoomScale, caScaleSpec]

/-- C4 witness: the corner-aligned scale statement at the concrete 4x4x4
volume resampled to 8x8x8. -/
theorem C4_corner_alignment_scale_witness :
    callMat (zoom testVol none (some (8, 8, 8)) true 0 1) =
      [[caScaleSpec (testVol.shape.getD 0 0)
          ((callShape (zoom testVol none (some (8, 8, 8)) true 0 1)).getD 0 0), 0, 0, 0],
       [0, caScaleSpec (testVol.shape.getD 1 0)
          ((callShape (zoom testVol none (some (8, 8, 8)) true 0 1)).getD 1 0), 0, 0],
       [0, 0, caScaleSpec (testVol.shape.getD 2 0)
          ((callShape (zoom testVol none (some (8, 8, 8)) true 0 1)).getD 2 0), 0],
       [0, 0, 0, 1]] :=
  C4_corner_alignment_scale testVol none (some (8, 8, 8)) 0 1 rfl

/-- C10: with exactly one of `zoom_factor`/`output_shape` supplied, a
non-3D input is rejected with the "Input must be 3D" error before any
output-shape computation, delegation, or kernel execution, whatever the
remaining arguments are. -/
theorem C10_input_must_be_3d (env : EngineEnv) (input : VolumeQ)
    (zf : Option ZoomFactorArg) (os : Option (ℤ × ℤ × ℤ))
    (align : Bool) (cval : ℚ) (order : ℕ)
    (hone : zf.isSome = !os.isSome) (h3 : input.shape.length ≠ 3) :
    zoomRunT env input zf os align cval order =
      (.error (.inputNot3D input.shape.length), false) := by
  cases zf <;> cases os <;> simp_all [zoomRunT, zoom, zoomBody]

/-- C10 witness: a 2D volume with a scalar factor is rejected as not 3D. -/
theorem C10_input_must_be_3d_witness :
    zoomRunT env0 vol2d (some (.scalar 2)) none false 0 1 =
      (.error (.inputNot3D vol2d.shape.length), false) :=
  C10_input_must_be_3d env0 vol2d (some (.scalar 2)) none false 0 1 rfl
    (by decide)

/-- If the engine pipeline records a kernel execution, it succeeded: every
error branch of the pipeline carries a `false` kernel flag. -/
lemma engineRunT_kernel_imp_ok (env : EngineEnv) (c : AffineCall)
    (h : (engineRunT env c).2 = true) : isOkE (engineRunT env c).1 = true := by
  unfold engineRunT at h ⊢
  split at h
  · exact absurd h (by simp)
  · split at h
    · exact absurd h (by simp)
    · split at h
      · exact absurd h (by simp)
      · by_cases hcond :
          selectTier env.caps env.hasKernel c.input.elemType = Tier.scalar ∧
            env.fallbackAllowed = false
        · simp [hcond] at h
        · simp only [if_neg hcond]
          simp_all [isOkE]

/-- C6: a zoom-pipeline call that fails with any validation error does so
before any interpolation kernel executes — the kernel-executed flag of the
pipeline is false whenever the result is an error.  In the purely functional
model the input volume is never written, and an error result carries no
volume, so a failing call yields no partial output. -/
theorem C6_errors_precede_kernel (env : EngineEnv) (input : VolumeQ)
    (zf : Option ZoomFactorArg) (os : Option (ℤ × ℤ × ℤ))
    (align : Bool) (cval : ℚ) (order : ℕ) (e : Err)
    (herr : zoomRun env input zf os align cval order = .error e) :
    zoomKernelExecuted env input zf os align cval order = false := by
  unfold zoomRun at herr
  unfold zoomKernelExecuted
  unfold zoomRunT at herr ⊢
  cases hz : zoom input zf os align cval order with
  | error e2 => simp [hz]
  | ok c =>
    rw [hz] at herr
    simp only [hz]
    cases hk : (engineRunT env c).2
    · rfl
    · have := engineRunT_kernel_imp_ok env c hk
      rw [herr] at this
      exact absurd this (by simp [isOkE])

/-- C6 witness: the failing call that supplies neither zoom argument executes
no kernel. -/
theorem C6_errors_precede_kernel_witness :
    zoomKernelExecuted env0 testVol none none false 0 1 = false :=
  C6_errors_precede_kernel env0 testVol none none false 0 1 .invalidArguments
    rfl

/-- C7: on an otherwise-valid call whose representation has no vectorized
kernel among the available tiers, the dispatcher selects the scalar kernel;
with the Fallback-Allowed Flag false the call fails with
`FallbackDisallowed`, and the identical call with the flag true succeeds by
running the kernel. -/
theorem C7_fallback_disallowed_guard (caps : List Tier)
    (hk : ElemRepr → Tier → Bool) (c : AffineCall)
    (hvec : caps.find? (fun t => hk c.input.elemType t) = none)
    (ho : c.order = 1) (hm : matrixOk c.matrix = true)
    (hs : shapeOk c.outputShape = true) :
    selectTier caps hk c.input.elemType = .scalar ∧
    engineRun { caps := caps, hasKernel := hk, fallbackAllowed := false } c =
      .error .fallbackDisallowed ∧
    engineRun { caps := caps, hasKernel := hk, fallbackAllowed := true } c =
      .ok (runKernel c.input c.matrix c.outputShape c.cval) := by
  have hsel : selectTier caps hk c.input.elemType = .scalar := by
    simp [selectTier, hvec]
  refine ⟨hsel, ?_, ?_⟩ <;> simp [engineRun, engineRunT, ho, hm, hs, hsel]

/-- C7 witness: AVX2-capable host, no vectorized kernel implemented for any
representation — the guard fires with the flag down and the scalar path runs
with the flag up. -/
theorem C7_fallback_disallowed_guard_witness :
    selectTier [.avx2] (fun _ _ => false) idCall.input.elemType = .scalar ∧
    engineRun
      { caps := [.avx2], hasKernel := fun _ _ => false,
        fallbackAllowed := false } idCall = .error .fallbackDisallowed ∧
    engineRun
      { caps := [.avx2], hasKernel := fun _ _ => false,
        fallbackAllowed := true } idCall =
      .ok (runKernel idCall.input idCall.matrix idCall.outputShape
        idCall.cval) :=
  C7_fallback_disallowed_guard [.avx2] (fun _ _ => false) idCall rfl rfl
    (by simp [matrixOk, idCall]) (by simp [shapeOk, idCall])

/-- Python round of an exact integer is that integer. -/
lemma pyRound_intCast (k : ℤ) : pyRound (k : ℚ) = k := by
  simp [pyRound, Int.floor_intCast]

/-- Doubling an integral extent rounds exactly. -/
lemma pyRound_nat_mul_two (n : ℕ) :
    pyRound ((n : ℚ) * 2) = ((2 * n : ℕ) : ℤ) := by
  have h : ((n : ℚ) * 2) = (((2 * n : ℕ) : ℤ) : ℚ) := by push_cast; ring
  rw [h, pyRound_intCast]

/-- Halving a doubled extent rounds exactly back. -/
lemma pyRound_nat_mul_half (n : ℕ) :
    pyRound (((2 * n : ℕ) : ℚ) * (1 / 2)) = (n : ℤ) := by
  have h : (((2 * n : ℕ) : ℚ) * (1 / 2)) = ((n : ℤ) : ℚ) := by push_cast; ring
  rw [h, pyRound_intCast]

/-- A zoom call with a scalar factor on a 3D input always delegates, with the
per-axis rounded output shape. -/
lemma zoom_scalar_ok (input : VolumeQ) (f : ℚ) (n0 n1 n2 : ℕ) (align : Bool)
    (cval : ℚ) (order : ℕ) (hsh : input.shape = [n0, n1, n2]) :
    zoom input (some (.scalar f)) none align cval order =
      .ok (buildCall input
        (pyRound ((n0 : ℚ) * f), pyRound ((n1 : ℚ) * f), pyRound ((n2 : ℚ) * f))
        align cval order) := by
  simp [zoom, zoomBody, computeOutputShape, resolveFactors, hsh]

/-- On a delegation built by `buildCall` with order 1 and positive output
extents, the engine succeeds (fallback allowed) and the kernel runs. -/
lemma engineRunT_buildCall_ok (env : EngineEnv) (input : VolumeQ)
    (os : ℤ × ℤ × ℤ) (align : Bool) (cval : ℚ)
    (hfb : env.fallbackAllowed = true)
    (h0 : 0 < os.1) (h1 : 0 < os.2.1) (h2 : 0 < os.2.2) :
    engineRunT env (buildCall input os align cval 1) =
      (.ok (runKernel input (buildCall input os align cval 1).matrix
        [os.1, os.2.1, os.2.2] cval), true) := by
  have hm : matrixOk (buildCall input os align cval 1).matrix = true := by
    simp [matrixOk, buildCall]
  have hsp : shapeOk (buildCall input os align cval 1).outputShape = true := by
    simp [shapeOk, buildCall, h0, h1, h2]
  simp [engineRunT, buildCall, hfb] at hm hsp ⊢
  simp [hm, hsp]

/-- C9: the corner-aligned round trip, factor 2 then factor 1/2, succeeds on
every 3D volume with positive extents and returns a volume whose shape is the
original shape.  Exact value equality is not claimed: resampling is lossy. -/
theorem C9_roundtrip_restores_shape (env : EngineEnv) (input : VolumeQ)
    (hfb : env.fallbackAllowed = true)
    (h3 : input.shape.length = 3)
    (hpos : ∀ n ∈ input.shape, 0 < n) :
    ∃ w1 w2,
      zoomRun env input (some (.scalar 2)) none true 0 1 = .ok w1 ∧
      zoomRun env w1 (some (.scalar (1/2))) none true 0 1 = .ok w2 ∧
      w2.shape = input.shape := by
  obtain ⟨n0, n1, n2, hsh⟩ := List.length_eq_three.mp h3
  have hn0 : 0 < n0 := hpos n0 (by rw [hsh]; simp)
  have hn1 : 0 < n1 := hpos n1 (by rw [hsh]; simp)
  have hn2 : 0 < n2 := hpos n2 (by rw [hsh]; simp)
  have hz1 := zoom_scalar_ok input 2 n0 n1 n2 true 0 1 hsh
  rw [pyRound_nat_mul_two n0, pyRound_nat_mul_two n1, pyRound_nat_mul_two n2]
    at hz1
  have he1 := engineRunT_buildCall_ok env input
    (((2 * n0 : ℕ) : ℤ), ((2 * n1 : ℕ) : ℤ), ((2 * n2 : ℕ) : ℤ)) true 0 hfb
    (Int.natCast_pos.mpr (by omega)) (Int.natCast_pos.mpr (by omega))
    (Int.natCast_pos.mpr (by omega))
  set w1 := runKernel input
    (buildCall input (((2 * n0 : ℕ) : ℤ), ((2 * n1 : ℕ) : ℤ),
      ((2 * n2 : ℕ) : ℤ)) true 0 1).matrix
    [((2 * n0 : ℕ) : ℤ), ((2 * n1 : ℕ) : ℤ), ((2 * n2 : ℕ) : ℤ)] 0 with hw1
  have hrun1 : zoomRun env input (some (.scalar 2)) none true 0 1 = .ok w1 := by
    unfold zoomRun zoomRunT
    rw [hz1]
    simp only []
    rw [he1]
  have hw1shape : w1.shape = [2 * n0, 2 * n1, 2 * n2] := by
    rw [hw1]
    simp [runKernel]
    omega
  have hz2 := zoom_scalar_ok w1 (1/2) (2 * n0) (2 * n1) (2 * n2) true 0 1
    hw1shape
  rw [pyRound_nat_mul_half n0, pyRound_nat_mul_half n1, pyRound_nat_mul_half n2]
    at hz2
  have he2 := engineRunT_buildCall_ok env w1
    ((n0 : ℤ), (n1 : ℤ), (n2 : ℤ)) true 0 hfb
    (Int.natCast_pos.mpr hn0) (Int.natCast_pos.mpr hn1)
    (Int.natCast_pos.mpr hn2)
  set w2 := runKernel w1
    (buildCall w1 ((n0 : ℤ), (n1 : ℤ), (n2 : ℤ)) true 0 1).matrix
    [(n0 : ℤ), (n1 : ℤ), (n2 : ℤ)] 0 with hw2
  have hrun2 : zoomRun env w1 (some (.scalar (1/2))) none true 0 1 = .ok w2 := by
    unfold zoomRun zoomRunT
    rw [hz2]
    simp only []
    rw [he2]
  refine ⟨w1, w2, hrun1, hrun2, ?_⟩
  rw [hw2, hsh]
  simp [runKernel]

/-- C9 witness: the round trip on the concrete 4x4x4 volume. -/
theorem C9_roundtrip_restores_shape_witness :
    ∃ w1 w2,
      zoomRun env0 testVol (some (.scalar 2)) none true 0 1 = .ok w1 ∧
      zoomRun env0 w1 (some (.scalar (1/2))) none true 0 1 = .ok w2 ∧
      w2.shape = testVol.shape :=
  C9_roundtrip_restores_shape env0 testVol rfl rfl (by decide)

end Affiners
